import Mathlib

/-
Shallow embedding of tmuxstar (src/src/main.rs), a tmux status-bar helper.

External `git` invocations are modelled by their observable results:
  `Option (Bool × String)` — `none` means the process could not be spawned;
  `some (ok, out)` means it ran with exit-status success `ok` and produced
  (lossily UTF-8 decoded) standard output `out`.
The `repo_state` status query is modelled by `Option String` because the
source reads `out.stdout` without ever inspecting the exit status there.

String primitives used by the source (`trim`, `lines`, `get(0..2)`,
`starts_with`, path splitting) are given executable character-list models,
since the corresponding Lean core functions do not reduce in the kernel.
-/

namespace Tmuxstar

/-- Split a character list at every occurrence of `c` (the separator is
dropped); always returns at least one (possibly empty) segment. -/
def splitOnChar (c : Char) : List Char → List (List Char)
  | [] => [[]]
  | x :: xs =>
    let r := splitOnChar c xs
    if x = c then [] :: r
    else
      match r with
      | [] => [[x]]
      | y :: ys => (x :: y) :: ys

/-- Model of Rust `str::trim`: remove leading and trailing whitespace. -/
def strTrim (s : String) : String :=
  ⟨(((s.data.dropWhile Char.isWhitespace).reverse.dropWhile
      Char.isWhitespace)).reverse⟩

/-- Model of Rust `str::is_empty`. -/
def strIsEmpty (s : String) : Bool :=
  s.data.isEmpty

/-- Model of Rust `str::starts_with` for a string pattern. -/
def strStartsWith (s p : String) : Bool :=
  p.data.isPrefixOf s.data

/-- Embeds `git_ok` (main.rs:41-52): spawn failure → `None`; non-zero exit →
`None`; otherwise trim the decoded stdout and return `None` when empty. -/
def git_ok (r : Option (Bool × String)) : Option String :=
  match r with
  | none => none
  | some (ok, out) =>
    if !ok then none
    else
      let s := strTrim out
      if strIsEmpty s then none else some s

/-- Embeds `is_repo` (main.rs:54-59): `output()` result mapped to the exit
status success flag, with spawn failure collapsed to `false`. -/
def is_repo (r : Option Bool) : Bool := r.getD false

/-- Model of Rust `Path::file_name` on the toplevel string: the last normal
component, `none` when the path has none or terminates in `..`. -/
def path_file_name (p : String) : Option String :=
  let comps := (splitOnChar '/' p.data).filter (fun c => !c.isEmpty && c ≠ ['.'])
  match comps.getLast? with
  | none => none
  | some c => if c = ['.', '.'] then none else some ⟨c⟩

/-- Embeds `repo_root_name` (main.rs:61-64): toplevel query through `git_ok`,
then the final path component of the result. -/
def repo_root_name (r : Option (Bool × String)) : Option String :=
  match git_ok r with
  | none => none
  | some root => path_file_name root

/-- Embeds `head_name` (main.rs:66-79): primary `rev-parse --abbrev-ref HEAD`
query; when its result is exactly "HEAD", the fallback
`describe --contains --all HEAD` query replaces it when that succeeds. -/
def head_name (primary fallback : Option (Bool × String)) : Option String :=
  match git_ok primary with
  | some h0 =>
    let h1 := if h0 = "HEAD" then
                match git_ok fallback with
                | some d => d
                | none => h0
              else h0
    if !(strIsEmpty h1) then some h1 else none
  | none => none

/-- Strip one trailing carriage return, as Rust `str::lines` does from a
segment that ended in a line feed. -/
def stripCRList (cs : List Char) : List Char :=
  if cs.getLast? = some '\r' then cs.dropLast else cs

/-- Model of Rust `str::lines`: split on line feeds, the final line ending
optional; a carriage return directly before a line feed is removed with it. -/
def rustLines (s : String) : List String :=
  if s.data.isEmpty then []
  else
    let segs := splitOnChar '\n' s.data
    let last := segs.getLastD []
    let init := (segs.dropLast.map stripCRList)
    ((if last.isEmpty then init else init ++ [last]).map
      (fun cs => String.mk cs))

/-- The seven unmerged-pair codes matched at main.rs:92. -/
def conflictCodes : List String := ["UU", "AA", "DD", "AU", "UD", "UA", "DU"]

/-- Model of Rust `l.get(0..2)`: the first two characters when the line has at
least two. (The source slices the first two bytes; since every comparison made
with the result is against two-ASCII-character codes, character granularity
gives the same outcome on every input.) -/
def strGet02 (l : String) : Option String :=
  if l.data.length ≥ 2 then some ⟨l.data.take 2⟩ else none

/-- Line test of main.rs:92: `matches!(l.get(0..2), Some("UU" | "AA" | "DD" |
"AU" | "UD" | "UA" | "DU"))`. -/
def isConflictLine (l : String) : Bool :=
  match strGet02 l with
  | some c => conflictCodes.contains c
  | none => false

/-- Line test of main.rs:95: `l.starts_with("??")`. -/
def isUntrackedLine (l : String) : Bool :=
  strStartsWith l "??"

/-- Line test of main.rs:98: first character in "MRADC", `None` → `false`. -/
def isStagedLine (l : String) : Bool :=
  ((l.data.head?).map (fun c => "MRADC".data.contains c)).getD false

/-- Line test of main.rs:101: second character in "MRADC D" (the set
{M, R, A, D, C, space}), `None` → `false`. -/
def isUnstagedLine (l : String) : Bool :=
  ((l.data.get? 1).map (fun c => "MRADC D".data.contains c)).getD false

/-- Embeds `repo_state` (main.rs:81-105). The argument is the result of the
`status --porcelain` spawn: `none` when the process could not run (the source
returns "clean" there), otherwise the decoded stdout. -/
def repo_state (status : Option String) : String :=
  match status with
  | none => "clean"
  | some s =>
    let ls := rustLines s
    if ls.any isConflictLine then "conflict"
    else if ls.any isUntrackedLine then "untracked"
    else if ls.any isStagedLine then "staged"
    else if ls.any isUnstagedLine then "unstaged"
    else "clean"

/-- Embeds `state_color_fg` (main.rs:107-119). -/
def state_color_fg (state : String) : String :=
  match state with
  | "conflict" | "unstaged" => "#ff6b6b"
  | "staged" => "#f1fa8c"
  | "untracked" => "#bd93f9"
  | "clean" => "#50fa7b"
  | _ => "white"

/-- Embeds `tmux_fg` (main.rs:117-119): `format!("#[fg={}]", color)`. -/
def tmux_fg (color : String) : String :=
  "#[fg=" ++ color ++ "]"

/-- The results of the five external git queries one `git` invocation can
make, in source order: the working-tree check, the toplevel query, the two
ref queries, and the status query. -/
structure GitEnv where
  isRepoQuery : Option Bool
  toplevel : Option (Bool × String)
  primaryRef : Option (Bool × String)
  fallbackRef : Option (Bool × String)
  status : Option String
deriving DecidableEq

/-- Embeds `print_git` (main.rs:121-141), returning the text printed to
standard output ("" when the three early returns print nothing; `println!`
appends the line feed). -/
def print_git (env : GitEnv) (label_fg icon : String) : String :=
  if !is_repo env.isRepoQuery then ""
  else
    match repo_root_name env.toplevel with
    | none => ""
    | some project =>
      match head_name env.primaryRef env.fallbackRef with
      | none => ""
      | some branch =>
        let state := repo_state env.status
        let c_icon := state_color_fg state
        tmux_fg c_icon ++ icon ++ tmux_fg label_fg ++ project ++ "(" ++ branch
          ++ ")" ++ "\n"

/-- The observable outcome of one process run: printed output and exit code. -/
structure ProcResult where
  out : String
  exitCode : Nat
deriving DecidableEq

/-- Embeds the `Cmd::Git` arm of `main` (main.rs:143-154): `print_git` runs
and the process exits with status 0 (Rust `main` returns `()`). -/
def run_git_cmd (env : GitEnv) (label_fg icon : String) : ProcResult :=
  { out := print_git env label_fg icon, exitCode := 0 }

end Tmuxstar

namespace Tmuxstar

/-- Anything `git_ok` returns is non-empty: the empty-after-trim case is
mapped to `none` (main.rs:51). -/
theorem git_ok_not_empty (r : Option (Bool × String)) (d : String)
    (h : git_ok r = some d) : strIsEmpty d = false := by
  match r with
  | none => simp [git_ok] at h
  | some (ok, out) =>
    simp only [git_ok] at h
    split at h
    · exact absurd h (by simp)
    · split at h
      · exact absurd h (by simp)
      · rename_i hne
        injection h with h2
        subst h2
        simpa using hne

end Tmuxstar

namespace Tmuxstar

/-- Claim C2: any status line whose first two characters form one of the
unmerged-pair codes UU, AA, DD, AU, UD, UA, DU makes `repo_state` return
"conflict", regardless of what other lines are present. -/
theorem repo_state_conflict_precedence (s : String)
    (h : (rustLines s).any isConflictLine = true) :
    repo_state (some s) = "conflict" := by
  simp [repo_state, h]

/-- Witness for the conflict-precedence theorem: a status output with an
unmerged line followed by untracked, staged and unstaged lines. -/
theorem repo_state_conflict_precedence_witness :
    (rustLines "UU a\n?? b\nM  c\n D d\n").any isConflictLine = true ∧
    repo_state (some "UU a\n?? b\nM  c\n D d\n") = "conflict" :=
  ⟨by decide, repo_state_conflict_precedence _ (by decide)⟩

/-- Claim C3: with no unmerged-pair line, any line starting with "??" makes
`repo_state` return "untracked", even when staged or unstaged markers appear
on other lines. -/
theorem repo_state_untracked_precedence (s : String)
    (hc : (rustLines s).any isConflictLine = false)
    (hu : (rustLines s).any isUntrackedLine = true) :
    repo_state (some s) = "untracked" := by
  simp [repo_state, hc, hu]

/-- Witness for the untracked-precedence theorem: an untracked line together
with a staged line and an unstaged line. -/
theorem repo_state_untracked_precedence_witness :
    (rustLines "?? b\nM  a\n M c\n").any isConflictLine = false ∧
    (rustLines "?? b\nM  a\n M c\n").any isUntrackedLine = true ∧
    repo_state (some "?? b\nM  a\n M c\n") = "untracked" :=
  ⟨by decide, by decide,
    repo_state_untracked_precedence _ (by decide) (by decide)⟩

/-- Claim C4: with no conflict and no untracked line, any line whose first
character is in {M,R,A,D,C} makes `repo_state` return "staged", even when a
worktree (second-character) change exists on another line. -/
theorem repo_state_staged_precedence (s : String)
    (hc : (rustLines s).any isConflictLine = false)
    (hu : (rustLines s).any isUntrackedLine = false)
    (hs : (rustLines s).any isStagedLine = true) :
    repo_state (some s) = "staged" := by
  simp [repo_state, hc, hu, hs]

/-- Witness for the staged-precedence theorem: a staged line together with a
second line carrying only a worktree change marker. -/
theorem repo_state_staged_precedence_witness :
    (rustLines "M  a\n M b\n").any isConflictLine = false ∧
    (rustLines "M  a\n M b\n").any isUntrackedLine = false ∧
    (rustLines "M  a\n M b\n").any isStagedLine = true ∧
    repo_state (some "M  a\n M b\n") = "staged" :=
  ⟨by decide, by decide, by decide,
    repo_state_staged_precedence _ (by decide) (by decide) (by decide)⟩

/-- Claim C5: with no conflict, untracked or first-character-staged line, any
line whose second character is in {M,R,A,D,C,space} makes `repo_state` return
"unstaged"; the space character counts as an unstaged marker. -/
theorem repo_state_unstaged_classification (s : String)
    (hc : (rustLines s).any isConflictLine = false)
    (hu : (rustLines s).any isUntrackedLine = false)
    (hs : (rustLines s).any isStagedLine = false)
    (hw : (rustLines s).any isUnstagedLine = true) :
    repo_state (some s) = "unstaged" := by
  simp [repo_state, hc, hu, hs, hw]

/-- Witness for the unstaged theorem: one line with second character M and one
line whose second character is a space (also counted as unstaged). -/
theorem repo_state_unstaged_classification_witness :
    (rustLines " M a\nX foo\n").any isConflictLine = false ∧
    (rustLines " M a\nX foo\n").any isUntrackedLine = false ∧
    (rustLines " M a\nX foo\n").any isStagedLine = false ∧
    (rustLines " M a\nX foo\n").any isUnstagedLine = true ∧
    repo_state (some " M a\nX foo\n") = "unstaged" :=
  ⟨by decide, by decide, by decide, by decide,
    repo_state_unstaged_classification _ (by decide) (by decide) (by decide)
      (by decide)⟩

/-- Claim C6: `repo_state` returns "clean" both when the status query fails to
spawn (`none`) and when its output is empty; being a total function into
strings, it surfaces no error in either case. -/
theorem repo_state_fail_open_clean :
    repo_state none = "clean" ∧ repo_state (some "") = "clean" := by
  exact ⟨by decide, by decide⟩

/-- Claim C7: when the path is not inside a working tree, or the toplevel name
or the current ref cannot be resolved, the git segment prints nothing and the
process exits with status 0. -/
theorem run_git_cmd_no_badge (env : GitEnv) (label_fg icon : String)
    (h : is_repo env.isRepoQuery = false ∨ repo_root_name env.toplevel = none ∨
      head_name env.primaryRef env.fallbackRef = none) :
    run_git_cmd env label_fg icon = { out := "", exitCode := 0 } := by
  unfold run_git_cmd
  rcases h with h | h | h
  · simp [print_git, h]
  · cases hr : is_repo env.isRepoQuery <;> simp [print_git, h, hr]
  · cases hr : is_repo env.isRepoQuery <;>
      cases ht : repo_root_name env.toplevel <;> simp [print_git, h, hr, ht]

/-- Witness for the no-badge theorem: the working-tree check spawn fails. -/
theorem run_git_cmd_no_badge_witness :
    is_repo (none : Option Bool) = false ∧
    run_git_cmd { isRepoQuery := none, toplevel := none, primaryRef := none, fallbackRef := none, status := none } "white" "*" = { out := "", exitCode := 0 } :=
  ⟨by decide, run_git_cmd_no_badge _ _ _ (Or.inl (by decide))⟩

/-- Claim C8: for a clean repository with toplevel name "myproj", current ref
"main", label color "white" and icon "*", the git segment prints exactly the
color switch to "#50fa7b", the icon, the color switch back to "white", then
"myproj(main)", terminated by a line feed. -/
theorem print_git_clean_concrete :
    print_git { isRepoQuery := some true, toplevel := some (true, "/home/user/myproj"), primaryRef := some (true, "main"), fallbackRef := none, status := some "" } "white" "*" = "#[fg=#50fa7b]*#[fg=white]myproj(main)\n" := by
  decide

end Tmuxstar

namespace Tmuxstar

/-- Claim C1 counterexample: the primary ref query returns exactly "HEAD" and
the fallback describe-contains query fails, yet the git segment does not print
empty output — it prints the literal "HEAD" as the branch name. -/
theorem print_git_detached_fallback_failed :
    print_git { isRepoQuery := some true, toplevel := some (true, "/home/user/myproj"), primaryRef := some (true, "HEAD"), fallbackRef := none, status := some "" } "white" "*" = "#[fg=#50fa7b]*#[fg=white]myproj(HEAD)\n" ∧
    print_git { isRepoQuery := some true, toplevel := some (true, "/home/user/myproj"), primaryRef := some (true, "HEAD"), fallbackRef := none, status := some "" } "white" "*" ≠ "" :=
  ⟨by decide, by decide⟩

/-- Claim C1 (amended): when the primary ref query returns exactly "HEAD", the
resolution invokes the fallback describe-contains query and uses its result as
the branch name when that query succeeds; when the fallback fails or produces
empty output, the resolution keeps the literal "HEAD" as the branch name (and
the segment prints it). -/
theorem head_name_detached_fallback (p f : Option (Bool × String))
    (hp : git_ok p = some "HEAD") :
    (∀ d, git_ok f = some d → head_name p f = some d) ∧
    (git_ok f = none → head_name p f = some "HEAD") := by
  constructor
  · intro d hf
    simp only [head_name, hp, hf]
    simp [git_ok_not_empty f d hf]
  · intro hf
    simp only [head_name, hp, hf]
    decide

/-- Witness for the amended detached-HEAD theorem at concrete query results:
a succeeding fallback is used; a failing fallback leaves "HEAD". -/
theorem head_name_detached_fallback_witness :
    git_ok (some (true, "HEAD")) = some "HEAD" ∧
    head_name (some (true, "HEAD")) (some (true, "tags/v1.2")) = some "tags/v1.2" ∧
    head_name (some (true, "HEAD")) none = some "HEAD" :=
  ⟨by decide,
    (head_name_detached_fallback _ _ (by decide)).1 "tags/v1.2" (by decide),
    (head_name_detached_fallback _ _ (by decide)).2 (by decide)⟩

/-- Claim C9 counterexample: the primary ref query produces empty output while
the fallback query produces the non-empty name "v1.0", yet the resolution
returns absent — the fallback is never consulted on an empty primary. -/
theorem head_name_empty_primary_absent :
    git_ok (some (true, "v1.0")) = some "v1.0" ∧
    head_name (some (true, "")) (some (true, "v1.0")) = none :=
  ⟨by decide, by decide⟩

/-- Claim C9 (amended): the resolution returns absent exactly when the primary
abbreviated-ref query fails or produces empty output; the fallback query's
result never affects absence (it is consulted only when the primary returns
the literal "HEAD", and then the result is never absent). -/
theorem head_name_none_iff (p f : Option (Bool × String)) :
    head_name p f = none ↔ git_ok p = none := by
  cases hp : git_ok p with
  | none => simp [head_name, hp]
  | some h0 =>
    simp only [head_name, hp]
    constructor
    · intro hnone
      exfalso
      by_cases hH : h0 = "HEAD"
      · subst hH
        cases hf : git_ok f with
        | none =>
          simp [hf] at hnone
          exact absurd hnone (by decide)
        | some d => simp [hf, git_ok_not_empty f d hf] at hnone
      · simp [hH, git_ok_not_empty p h0 hp] at hnone
    · intro hc
      exact absurd hc (by simp)

/-- Claim C10: `repo_state` is total over its status input — for every input
it returns exactly one of the five classification strings and never fails. -/
theorem repo_state_total (st : Option String) :
    repo_state st = "conflict" ∨ repo_state st = "untracked" ∨
    repo_state st = "staged" ∨ repo_state st = "unstaged" ∨
    repo_state st = "clean" := by
  cases st with
  | none => simp [repo_state]
  | some s =>
    simp only [repo_state]
    split
    · exact Or.inl rfl
    · split
      · exact Or.inr (Or.inl rfl)
      · split
        · exact Or.inr (Or.inr (Or.inl rfl))
        · split
          · exact Or.inr (Or.inr (Or.inr (Or.inl rfl)))
          · exact Or.inr (Or.inr (Or.inr (Or.inr rfl)))

end Tmuxstar
